import Mathlib

/-!
Verification of the dwave-cloud-client SAPI resource layer
(`dwave/cloud/api/resources.py`) and the numpy-coercion helper
(`dwave/cloud/utils.py`), shallowly embedded in Lean.
-/

/-- Decoded JSON values, as returned by `response.json()`. -/
inductive Json where
  | null
  | bool (b : Bool)
  | num (n : Int)
  | str (s : String)
  | arr (elems : List Json)
  | obj (fields : List (String × Json))
deriving Repr

/-- `'key' in d` for a decoded JSON object; `False` on non-objects. -/
def Json.hasKey (j : Json) (key : String) : Bool :=
  match j with
  | .obj fields => fields.any (fun f => f.1 == key)
  | _ => false

/-- `d[key]` lookup on a decoded JSON object (`none` models KeyError /
TypeError on non-objects). -/
def Json.getKey (j : Json) (key : String) : Option Json :=
  match j with
  | .obj fields => (fields.find? (fun f => f.1 == key)).map (fun f => f.2)
  | _ => none

/-- Viewing a decoded JSON value as an array, as done when iterating
`response.json()` (`none` models the TypeError on non-arrays). -/
def Json.asArray (j : Json) : Option (List Json) :=
  match j with
  | .arr elems => some elems
  | _ => none

/-! ### Record model

The typed records of `dwave.cloud.api.models` are external collaborators:
plain data records constructed from the decoded JSON handed to them
(`Model(**s)`).  Each is embedded as a wrapper around the raw JSON object
used to construct it. -/

structure ProblemStatus where
  raw : Json
deriving Repr

structure ProblemStatusMaybeWithAnswer where
  raw : Json
deriving Repr

structure ProblemAnswer where
  raw : Json
deriving Repr

structure ProblemInitialStatus where
  raw : Json
deriving Repr

structure ProblemSubmitError where
  raw : Json
deriving Repr

structure ProblemCancelError where
  raw : Json
deriving Repr

/-- A submission request unit.  Its pydantic serialization `p.json()` is an
external collaborator, so a job is embedded by the serialized form it
produces. -/
structure ProblemJob where
  json : String
deriving Repr

/-! ### Transport model

The HTTP session is an external collaborator offering
`get/post/delete(path, params, json/data, headers)` returning a response
whose `.json()` is a decoded JSON value.  A `Session` maps each issued
request to that decoded body; every operation also reports the list of
requests it issued, so that client-side behavior (e.g. "no network call")
is observable. -/

inductive Method where
  | get
  | post
  | delete
deriving Repr, DecidableEq

structure Request where
  method : Method
  path : String
  params : List (String × String)
  jsonBody : Option Json
  dataBody : Option String
  headers : List (String × String)
deriving Repr

def Session : Type := Request → Json

/-- Request-level failures of a resource operation.  Per the error-handling
design, client-side contract violations raise `ValidationError`, a missing
resource surfaces as `NotFound`, and a response JSON not matching the
expected shape is a `DecodingError`. -/
inductive ApiError where
  | validationError (msg : String)
  | notFound
  | decodingError
deriving Repr, DecidableEq

/-- Modelled from the spec: the exception-translation layer that surfaces
the index/lookup error raised by `response.json()[0]` on an empty listing
result as a `NotFound` failure is not part of `resources.py` itself; the
spec states "fails with NotFound if the filtered result is empty
(index/lookup error surfaces as such)". -/
def indexErrorOnEmptyListing : ApiError := ApiError.notFound

namespace Problems

/-- The request issued by `list_problems` (GET on the resource root with
the caller's filter params). -/
def listRequest (params : List (String × String)) : Request :=
  { method := .get, path := "", params := params,
    jsonBody := none, dataBody := none, headers := [] }

/-- `Problems.list_problems`: GET the listing, decode each array element as
a `ProblemStatus`. -/
def list_problems (session : Session) (params : List (String × String)) :
    Except ApiError (List ProblemStatus) × List Request :=
  let response := session (listRequest params)
  match response.asArray with
  | some statuses => (.ok (statuses.map ProblemStatus.mk), [listRequest params])
  | none => (.error .decodingError, [listRequest params])

/-- `Problems.get_problem_status`: GET the listing filtered by the single
id, take element `[0]` of the response array. -/
def get_problem_status (session : Session) (problem_id : String) :
    Except ApiError ProblemStatus × List Request :=
  let req := listRequest [("id", problem_id)]
  let response := session req
  match response.asArray with
  | some [] => (.error indexErrorOnEmptyListing, [req])
  | some (s :: _) => (.ok (ProblemStatus.mk s), [req])
  | none => (.error .decodingError, [req])

/-- `Problems.get_problem_statuses`: reject more than 1000 ids before any
request, otherwise GET the listing filtered by the comma-joined ids. -/
def get_problem_statuses (session : Session) (problem_ids : List String) :
    Except ApiError (List ProblemStatus) × List Request :=
  if problem_ids.length > 1000 then
    (.error (.validationError "number of problem ids is limited to 1000"), [])
  else
    let req := listRequest [("id", String.intercalate "," problem_ids)]
    let response := session req
    match response.asArray with
    | some statuses => (.ok (statuses.map ProblemStatus.mk), [req])
    | none => (.error .decodingError, [req])

/-- The request issued by `get_problem_answer` (GET on `{id}/answer`). -/
def answerRequest (problem_id : String) : Request :=
  { method := .get, path := problem_id ++ "/answer", params := [],
    jsonBody := none, dataBody := none, headers := [] }

/-- `Problems.get_problem_answer`: GET `{id}/answer` and construct the
`ProblemAnswer` from `response.json()['answer']`. -/
def get_problem_answer (session : Session) (problem_id : String) :
    Except ApiError ProblemAnswer × List Request :=
  let response := session (answerRequest problem_id)
  match response.getKey "answer" with
  | some answer => (.ok (ProblemAnswer.mk answer), [answerRequest problem_id])
  | none => (.error .decodingError, [answerRequest problem_id])

/-- The request issued by `submit_problems`: POST of the piecewise-encoded
body `'[%s]' % ','.join(p.json() for p in problems)` with an explicit JSON
content type. -/
def submitRequest (problems : List ProblemJob) : Request :=
  { method := .post, path := "", params := [],
    jsonBody := none,
    dataBody := some ("[" ++ String.intercalate "," (problems.map ProblemJob.json) ++ "]"),
    headers := [("Content-Type", "application/json")] }

/-- `Problems.submit_problems`: POST the piecewise-encoded job array and
decode each response element as `ProblemInitialStatus` when it has a
`status` key, else as `ProblemSubmitError`. -/
def submit_problems (session : Session) (problems : List ProblemJob) :
    Except ApiError (List (ProblemInitialStatus ⊕ ProblemSubmitError)) × List Request :=
  let req := submitRequest problems
  let response := session req
  match response.asArray with
  | some statuses =>
      (.ok (statuses.map (fun s =>
          if s.hasKey "status" then .inl (ProblemInitialStatus.mk s)
          else .inr (ProblemSubmitError.mk s))), [req])
  | none => (.error .decodingError, [req])

/-- The request issued by `cancel_problems` (DELETE on the resource root
with the id list as JSON body). -/
def cancelRequest (problem_ids : List String) : Request :=
  { method := .delete, path := "", params := [],
    jsonBody := some (Json.arr (problem_ids.map Json.str)),
    dataBody := none, headers := [] }

/-- `Problems.cancel_problems`: DELETE with the id list and decode each
response element as `ProblemStatus` when it has a `status` key, else as
`ProblemCancelError`. -/
def cancel_problems (session : Session) (problem_ids : List String) :
    Except ApiError (List (ProblemStatus ⊕ ProblemCancelError)) × List Request :=
  let req := cancelRequest problem_ids
  let response := session req
  match response.asArray with
  | some statuses =>
      (.ok (statuses.map (fun s =>
          if s.hasKey "status" then .inl (ProblemStatus.mk s)
          else .inr (ProblemCancelError.mk s))), [req])
  | none => (.error .decodingError, [req])

end Problems

/-! ### `dwave.cloud.utils.coerce_numpy_to_python`

Python values as seen by the coercion helper: the basic scalars, the three
containers it recurses into (list, tuple, dict), and the numpy values it
converts (scalar integers, floats, booleans, and ndarrays).  A float's
payload is an opaque identifier: the helper only carries floats through or
converts a numpy float to the Python float of the same value, never
computes with them. -/
inductive PyVal where
  | none
  | bool (b : Bool)
  | int (n : Int)
  | float (x : Int)
  | str (s : String)
  | list (xs : List PyVal)
  | tuple (xs : List PyVal)
  | dict (entries : List (PyVal × PyVal))
  | npInt (n : Int)
  | npFloat (x : Int)
  | npBool (b : Bool)
  | npArray (elems : List PyVal)
deriving Repr

/-- `coerce_numpy_to_python`: convert numpy scalars to Python scalars,
ndarrays to lists, and rebuild lists, tuples and dicts with coerced
members; everything else is returned unchanged. -/
def coerce_numpy_to_python : PyVal → PyVal
  | .npInt n => .int n
  | .npFloat x => .float x
  | .npBool b => .bool b
  | .npArray elems => .list (elems.attach.map (fun v => coerce_numpy_to_python v.1))
  | .list xs => .list (xs.attach.map (fun v => coerce_numpy_to_python v.1))
  | .tuple xs => .tuple (xs.attach.map (fun v => coerce_numpy_to_python v.1))
  | .dict entries =>
      .dict (entries.attach.map
        (fun v => (coerce_numpy_to_python v.1.1, coerce_numpy_to_python v.1.2)))
  | .none => .none
  | .bool b => .bool b
  | .int n => .int n
  | .float x => .float x
  | .str s => .str s
decreasing_by
all_goals simp_wf
all_goals (obtain ⟨v, hv⟩ := v; have hlt := List.sizeOf_lt_of_mem hv; simp only []; try omega)
all_goals (obtain ⟨k, w⟩ := v; simp at hlt ⊢; omega)

/-- A Python value contains no numpy value anywhere inside. -/
def numpyFree : PyVal → Bool
  | .npInt _ => false
  | .npFloat _ => false
  | .npBool _ => false
  | .npArray _ => false
  | .list xs => xs.attach.all (fun v => numpyFree v.1)
  | .tuple xs => xs.attach.all (fun v => numpyFree v.1)
  | .dict entries => entries.attach.all (fun v => numpyFree v.1.1 && numpyFree v.1.2)
  | _ => true
decreasing_by
all_goals simp_wf
all_goals (obtain ⟨v, hv⟩ := v; have hlt := List.sizeOf_lt_of_mem hv; simp only []; try omega)
all_goals (obtain ⟨k, w⟩ := v; simp at hlt ⊢; omega)

/-! ### Unfolding lemmas for the resource operations -/

namespace Problems

theorem list_problems_of_arr (session : Session) (params : List (String × String))
    (raw : List Json) (h : session (listRequest params) = Json.arr raw) :
    list_problems session params =
      (.ok (raw.map ProblemStatus.mk), [listRequest params]) := by
  simp [list_problems, h, Json.asArray]

theorem get_problem_status_of_arr (session : Session) (problem_id : String)
    (raw : List Json)
    (h : session (listRequest [("id", problem_id)]) = Json.arr raw) :
    get_problem_status session problem_id =
      (match raw with
       | [] => (.error indexErrorOnEmptyListing, [listRequest [("id", problem_id)]])
       | s :: _ => (.ok (ProblemStatus.mk s), [listRequest [("id", problem_id)]])) := by
  cases raw with
  | nil => simp [get_problem_status, h, Json.asArray]
  | cons s rest => simp [get_problem_status, h, Json.asArray]

theorem get_problem_statuses_of_le (session : Session) (problem_ids : List String)
    (hle : problem_ids.length ≤ 1000) (raw : List Json)
    (h : session (listRequest [("id", String.intercalate "," problem_ids)]) = Json.arr raw) :
    get_problem_statuses session problem_ids =
      (.ok (raw.map ProblemStatus.mk),
       [listRequest [("id", String.intercalate "," problem_ids)]]) := by
  rw [get_problem_statuses, if_neg (by omega)]
  simp [h, Json.asArray]

theorem get_problem_answer_of_key (session : Session) (problem_id : String)
    (answer : Json)
    (h : (session (answerRequest problem_id)).getKey "answer" = some answer) :
    get_problem_answer session problem_id =
      (.ok (ProblemAnswer.mk answer), [answerRequest problem_id]) := by
  simp [get_problem_answer, h]

theorem submit_problems_of_arr (session : Session) (problems : List ProblemJob)
    (raw : List Json) (h : session (submitRequest problems) = Json.arr raw) :
    submit_problems session problems =
      (.ok (raw.map (fun s =>
          if s.hasKey "status" then .inl (ProblemInitialStatus.mk s)
          else .inr (ProblemSubmitError.mk s))),
       [submitRequest problems]) := by
  simp [submit_problems, h, Json.asArray]

theorem cancel_problems_of_arr (session : Session) (problem_ids : List String)
    (raw : List Json) (h : session (cancelRequest problem_ids) = Json.arr raw) :
    cancel_problems session problem_ids =
      (.ok (raw.map (fun s =>
          if s.hasKey "status" then .inl (ProblemStatus.mk s)
          else .inr (ProblemCancelError.mk s))),
       [cancelRequest problem_ids]) := by
  simp [cancel_problems, h, Json.asArray]

end Problems

theorem coerce_list_def (xs : List PyVal) :
    coerce_numpy_to_python (.list xs) = .list (xs.map coerce_numpy_to_python) := by
  rw [coerce_numpy_to_python, List.attach_map_val]

theorem coerce_tuple_def (xs : List PyVal) :
    coerce_numpy_to_python (.tuple xs) = .tuple (xs.map coerce_numpy_to_python) := by
  rw [coerce_numpy_to_python, List.attach_map_val]

theorem coerce_npArray_def (elems : List PyVal) :
    coerce_numpy_to_python (.npArray elems) = .list (elems.map coerce_numpy_to_python) := by
  rw [coerce_numpy_to_python, List.attach_map_val]

theorem coerce_dict_def (entries : List (PyVal × PyVal)) :
    coerce_numpy_to_python (.dict entries) =
      .dict (entries.map
        (fun e => (coerce_numpy_to_python e.1, coerce_numpy_to_python e.2))) := by
  rw [coerce_numpy_to_python,
    List.attach_map_val entries
      (fun e => (coerce_numpy_to_python e.1, coerce_numpy_to_python e.2))]

theorem numpyFree_list_def (xs : List PyVal) :
    numpyFree (.list xs) = xs.all numpyFree := by
  rw [numpyFree, Bool.eq_iff_iff]
  simp [List.all_eq_true]

theorem numpyFree_tuple_def (xs : List PyVal) :
    numpyFree (.tuple xs) = xs.all numpyFree := by
  rw [numpyFree, Bool.eq_iff_iff]
  simp [List.all_eq_true]

theorem numpyFree_dict_def (entries : List (PyVal × PyVal)) :
    numpyFree (.dict entries) =
      entries.all (fun e => numpyFree e.1 && numpyFree e.2) := by
  rw [numpyFree, Bool.eq_iff_iff]
  simp [List.all_eq_true]

/-- Core induction: coercion always produces a numpy-free value, and on
numpy-free values it is the identity. -/
theorem coerce_core : ∀ n : Nat, ∀ v : PyVal, sizeOf v ≤ n →
    numpyFree (coerce_numpy_to_python v) = true ∧
    (numpyFree v = true → coerce_numpy_to_python v = v) := by
  intro n
  induction n with
  | zero =>
    intro v h
    exact absurd h (by cases v <;> simp)
  | succ n ih =>
    intro v h
    cases v with
    | none => simp [coerce_numpy_to_python, numpyFree]
    | bool b => simp [coerce_numpy_to_python, numpyFree]
    | int m => simp [coerce_numpy_to_python, numpyFree]
    | float x => simp [coerce_numpy_to_python, numpyFree]
    | str s => simp [coerce_numpy_to_python, numpyFree]
    | npInt m => simp [coerce_numpy_to_python, numpyFree]
    | npFloat x => simp [coerce_numpy_to_python, numpyFree]
    | npBool b => simp [coerce_numpy_to_python, numpyFree]
    | npArray elems =>
      have hmem : ∀ a ∈ elems, sizeOf a ≤ n := by
        intro a ha
        have := List.sizeOf_lt_of_mem ha
        simp at h
        omega
      refine ⟨?_, by simp [numpyFree]⟩
      rw [coerce_npArray_def, numpyFree_list_def, List.all_eq_true]
      intro a ha
      rw [List.mem_map] at ha
      obtain ⟨b, hb, rfl⟩ := ha
      exact (ih b (hmem b hb)).1
    | list xs =>
      have hmem : ∀ a ∈ xs, sizeOf a ≤ n := by
        intro a ha
        have := List.sizeOf_lt_of_mem ha
        simp at h
        omega
      constructor
      · rw [coerce_list_def, numpyFree_list_def, List.all_eq_true]
        intro a ha
        rw [List.mem_map] at ha
        obtain ⟨b, hb, rfl⟩ := ha
        exact (ih b (hmem b hb)).1
      · intro hfree
        rw [numpyFree_list_def, List.all_eq_true] at hfree
        rw [coerce_list_def]
        have hid : xs.map coerce_numpy_to_python = xs.map id :=
          List.map_congr_left (fun a ha => (ih a (hmem a ha)).2 (hfree a ha))
        rw [hid, List.map_id]
    | tuple xs =>
      have hmem : ∀ a ∈ xs, sizeOf a ≤ n := by
        intro a ha
        have := List.sizeOf_lt_of_mem ha
        simp at h
        omega
      constructor
      · rw [coerce_tuple_def, numpyFree_tuple_def, List.all_eq_true]
        intro a ha
        rw [List.mem_map] at ha
        obtain ⟨b, hb, rfl⟩ := ha
        exact (ih b (hmem b hb)).1
      · intro hfree
        rw [numpyFree_tuple_def, List.all_eq_true] at hfree
        rw [coerce_tuple_def]
        have hid : xs.map coerce_numpy_to_python = xs.map id :=
          List.map_congr_left (fun a ha => (ih a (hmem a ha)).2 (hfree a ha))
        rw [hid, List.map_id]
    | dict entries =>
      have hmem : ∀ e ∈ entries, sizeOf e.1 ≤ n ∧ sizeOf e.2 ≤ n := by
        intro e he
        have := List.sizeOf_lt_of_mem he
        obtain ⟨k, w⟩ := e
        simp at h this ⊢
        omega
      constructor
      · rw [coerce_dict_def, numpyFree_dict_def, List.all_eq_true]
        intro a ha
        rw [List.mem_map] at ha
        obtain ⟨e, he, rfl⟩ := ha
        have hk := (ih e.1 (hmem e he).1).1
        have hw := (ih e.2 (hmem e he).2).1
        simp [hk, hw]
      · intro hfree
        rw [numpyFree_dict_def, List.all_eq_true] at hfree
        rw [coerce_dict_def]
        have hid : entries.map
            (fun e => (coerce_numpy_to_python e.1, coerce_numpy_to_python e.2)) =
            entries.map id := by
          apply List.map_congr_left
          intro e he
          have hb := hfree e he
          rw [Bool.and_eq_true] at hb
          have h1 := (ih e.1 (hmem e he).1).2 hb.1
          have h2 := (ih e.2 (hmem e he).2).2 hb.2
          simp [h1, h2]
        rw [hid, List.map_id]

/-! ### Claim theorems -/

/-- Claim C1: for every list of N ProblemJob inputs (with the response
array carrying one element per input), `submit_problems` returns a
sequence of length exactly N, preserving input order, where each element
is decoded as `ProblemInitialStatus` iff the corresponding raw JSON
response element contains a `status` key and as `ProblemSubmitError`
otherwise; the decision is independent per element, so one batch may mix
both variants. -/
theorem C1_submit_problems_length_order_classification
    (session : Session) (problems : List ProblemJob) (raw : List Json)
    (hresp : session (Problems.submitRequest problems) = Json.arr raw)
    (hlen : raw.length = problems.length) :
    ∃ out, (Problems.submit_problems session problems).1 = .ok out ∧
      out.length = problems.length ∧
      ∀ (i : Nat) (hi : i < out.length) (hr : i < raw.length),
        out[i] = if (raw[i]).hasKey "status"
          then Sum.inl (ProblemInitialStatus.mk (raw[i]))
          else Sum.inr (ProblemSubmitError.mk (raw[i])) := by
  refine ⟨raw.map (fun s =>
      if s.hasKey "status" then .inl (ProblemInitialStatus.mk s)
      else .inr (ProblemSubmitError.mk s)), ?_, ?_, ?_⟩
  · rw [Problems.submit_problems_of_arr session problems raw hresp]
  · rw [List.length_map, hlen]
  · intro i hi hr
    simp

/-- Claim C1 witness: a concrete two-job batch whose response mixes an
accepted element (with `status`) and a rejected one (without). -/
theorem C1_submit_problems_length_order_classification_witness :
    ∃ out, (Problems.submit_problems
        (fun _ => Json.arr [Json.obj [("status", Json.str "PENDING")],
                            Json.obj [("error_code", Json.num 400)]])
        [ProblemJob.mk "jobA", ProblemJob.mk "jobB"]).1 = .ok out ∧
      out.length = [ProblemJob.mk "jobA", ProblemJob.mk "jobB"].length ∧
      ∀ (i : Nat) (hi : i < out.length)
        (hr : i < [Json.obj [("status", Json.str "PENDING")],
                   Json.obj [("error_code", Json.num 400)]].length),
        out[i] = if ([Json.obj [("status", Json.str "PENDING")],
                      Json.obj [("error_code", Json.num 400)]][i]).hasKey "status"
          then Sum.inl (ProblemInitialStatus.mk
            ([Json.obj [("status", Json.str "PENDING")],
              Json.obj [("error_code", Json.num 400)]][i]))
          else Sum.inr (ProblemSubmitError.mk
            ([Json.obj [("status", Json.str "PENDING")],
              Json.obj [("error_code", Json.num 400)]][i])) :=
  C1_submit_problems_length_order_classification
    (fun _ => Json.arr [Json.obj [("status", Json.str "PENDING")],
                        Json.obj [("error_code", Json.num 400)]])
    [ProblemJob.mk "jobA", ProblemJob.mk "jobB"]
    [Json.obj [("status", Json.str "PENDING")],
     Json.obj [("error_code", Json.num 400)]]
    rfl rfl

/-- Claim C2: `get_problem_statuses` with more than 1000 ids fails with a
ValidationError before any network call (no request issued); with at most
1000 ids no ValidationError is raised and the listing request is issued. -/
theorem C2_get_problem_statuses_cap (session : Session) (problem_ids : List String) :
    (problem_ids.length > 1000 →
      Problems.get_problem_statuses session problem_ids =
        (.error (.validationError "number of problem ids is limited to 1000"), [])) ∧
    (problem_ids.length ≤ 1000 →
      (∀ msg, (Problems.get_problem_statuses session problem_ids).1 ≠
          .error (.validationError msg)) ∧
      (Problems.get_problem_statuses session problem_ids).2 =
        [Problems.listRequest [("id", String.intercalate "," problem_ids)]]) := by
  constructor
  · intro hgt
    rw [Problems.get_problem_statuses, if_pos hgt]
  · intro hle
    rw [Problems.get_problem_statuses, if_neg (by omega)]
    cases h : (session
        (Problems.listRequest [("id", String.intercalate "," problem_ids)])).asArray with
    | some statuses => simp [h]
    | none => simp [h]

/-- Claim C2 witness: 1001 ids are rejected with no request issued; two
ids are accepted and the listing request goes out. -/
theorem C2_get_problem_statuses_cap_witness :
    Problems.get_problem_statuses (fun _ => Json.arr []) (List.replicate 1001 "x") =
      (.error (.validationError "number of problem ids is limited to 1000"), []) ∧
    ((∀ msg, (Problems.get_problem_statuses (fun _ => Json.arr []) ["a", "b"]).1 ≠
        .error (.validationError msg)) ∧
      (Problems.get_problem_statuses (fun _ => Json.arr []) ["a", "b"]).2 =
        [Problems.listRequest [("id", String.intercalate "," ["a", "b"])]]) :=
  ⟨(C2_get_problem_statuses_cap (fun _ => Json.arr []) (List.replicate 1001 "x")).1
      (by rw [List.length_replicate]; omega),
   (C2_get_problem_statuses_cap (fun _ => Json.arr []) ["a", "b"]).2 (by simp)⟩

/-- Claim C3: for every list of problem ids (with the response array
carrying one element per id), `cancel_problems` returns one element per
requested id, preserving count and order, each decoded as `ProblemStatus`
iff the corresponding raw response element has a `status` key and as
`ProblemCancelError` otherwise; a mixed batch yields a mix of variants
with no exception for item-level failures (the overall result is `ok`). -/
theorem C3_cancel_problems_length_order_classification
    (session : Session) (problem_ids : List String) (raw : List Json)
    (hresp : session (Problems.cancelRequest problem_ids) = Json.arr raw)
    (hlen : raw.length = problem_ids.length) :
    ∃ out, (Problems.cancel_problems session problem_ids).1 = .ok out ∧
      out.length = problem_ids.length ∧
      ∀ (i : Nat) (hi : i < out.length) (hr : i < raw.length),
        out[i] = if (raw[i]).hasKey "status"
          then Sum.inl (ProblemStatus.mk (raw[i]))
          else Sum.inr (ProblemCancelError.mk (raw[i])) := by
  refine ⟨raw.map (fun s =>
      if s.hasKey "status" then .inl (ProblemStatus.mk s)
      else .inr (ProblemCancelError.mk s)), ?_, ?_, ?_⟩
  · rw [Problems.cancel_problems_of_arr session problem_ids raw hresp]
  · rw [List.length_map, hlen]
  · intro i hi hr
    simp

/-- Claim C3 witness: a concrete two-id cancel batch whose response mixes
a cancelled status and a per-item error. -/
theorem C3_cancel_problems_length_order_classification_witness :
    ∃ out, (Problems.cancel_problems
        (fun _ => Json.arr [Json.obj [("status", Json.str "CANCELLED")],
                            Json.obj [("error_code", Json.num 404)]])
        ["id1", "id2"]).1 = .ok out ∧
      out.length = ["id1", "id2"].length ∧
      ∀ (i : Nat) (hi : i < out.length)
        (hr : i < [Json.obj [("status", Json.str "CANCELLED")],
                   Json.obj [("error_code", Json.num 404)]].length),
        out[i] = if ([Json.obj [("status", Json.str "CANCELLED")],
                      Json.obj [("error_code", Json.num 404)]][i]).hasKey "status"
          then Sum.inl (ProblemStatus.mk
            ([Json.obj [("status", Json.str "CANCELLED")],
              Json.obj [("error_code", Json.num 404)]][i]))
          else Sum.inr (ProblemCancelError.mk
            ([Json.obj [("status", Json.str "CANCELLED")],
              Json.obj [("error_code", Json.num 404)]][i])) :=
  C3_cancel_problems_length_order_classification
    (fun _ => Json.arr [Json.obj [("status", Json.str "CANCELLED")],
                        Json.obj [("error_code", Json.num 404)]])
    ["id1", "id2"]
    [Json.obj [("status", Json.str "CANCELLED")],
     Json.obj [("error_code", Json.num 404)]]
    rfl rfl

/-- Claim C4: each batch operation of the Problems resource
(`submit_problems`, `cancel_problems`, `get_problem_statuses`), when its
response array carries one element per requested item, produces a result
of the same length and in the same order as its input: one result per
requested item, with errors interleaved in place, never dropped or
reordered. -/
theorem C4_batch_results_match_inputs
    (session : Session) (problems : List ProblemJob)
    (cancel_ids status_ids : List String)
    (rawSubmit rawCancel rawStatuses : List Json)
    (hrs : session (Problems.submitRequest problems) = Json.arr rawSubmit)
    (hrc : session (Problems.cancelRequest cancel_ids) = Json.arr rawCancel)
    (hrq : session (Problems.listRequest
        [("id", String.intercalate "," status_ids)]) = Json.arr rawStatuses)
    (hls : rawSubmit.length = problems.length)
    (hlc : rawCancel.length = cancel_ids.length)
    (hlq : rawStatuses.length = status_ids.length)
    (hcap : status_ids.length ≤ 1000) :
    (∃ out, (Problems.submit_problems session problems).1 = .ok out ∧
      out.length = problems.length ∧
      ∀ (i : Nat) (hi : i < out.length) (hr : i < rawSubmit.length),
        out[i] = if (rawSubmit[i]).hasKey "status"
          then Sum.inl (ProblemInitialStatus.mk (rawSubmit[i]))
          else Sum.inr (ProblemSubmitError.mk (rawSubmit[i]))) ∧
    (∃ out, (Problems.cancel_problems session cancel_ids).1 = .ok out ∧
      out.length = cancel_ids.length ∧
      ∀ (i : Nat) (hi : i < out.length) (hr : i < rawCancel.length),
        out[i] = if (rawCancel[i]).hasKey "status"
          then Sum.inl (ProblemStatus.mk (rawCancel[i]))
          else Sum.inr (ProblemCancelError.mk (rawCancel[i]))) ∧
    (∃ out, (Problems.get_problem_statuses session status_ids).1 = .ok out ∧
      out.length = status_ids.length ∧
      ∀ (i : Nat) (hi : i < out.length) (hr : i < rawStatuses.length),
        out[i] = ProblemStatus.mk (rawStatuses[i])) := by
  refine ⟨⟨rawSubmit.map (fun s =>
      if s.hasKey "status" then .inl (ProblemInitialStatus.mk s)
      else .inr (ProblemSubmitError.mk s)), ?_, ?_, ?_⟩,
    ⟨rawCancel.map (fun s =>
      if s.hasKey "status" then .inl (ProblemStatus.mk s)
      else .inr (ProblemCancelError.mk s)), ?_, ?_, ?_⟩,
    ⟨rawStatuses.map ProblemStatus.mk, ?_, ?_, ?_⟩⟩
  · rw [Problems.submit_problems_of_arr session problems rawSubmit hrs]
  · rw [List.length_map, hls]
  · intro i hi hr
    simp
  · rw [Problems.cancel_problems_of_arr session cancel_ids rawCancel hrc]
  · rw [List.length_map, hlc]
  · intro i hi hr
    simp
  · rw [Problems.get_problem_statuses_of_le session status_ids hcap rawStatuses hrq]
  · rw [List.length_map, hlq]
  · intro i hi hr
    simp

/-- Claim C4 witness: a concrete session answering every request with the
same mixed two-element array, exercised on two jobs and two ids per
operation. -/
theorem C4_batch_results_match_inputs_witness :
    (∃ out, (Problems.submit_problems
        (fun _ => Json.arr [Json.obj [("status", Json.str "PENDING")], Json.obj []])
        [ProblemJob.mk "jobA", ProblemJob.mk "jobB"]).1 = .ok out ∧
      out.length = [ProblemJob.mk "jobA", ProblemJob.mk "jobB"].length ∧
      ∀ (i : Nat) (hi : i < out.length)
        (hr : i < [Json.obj [("status", Json.str "PENDING")], Json.obj []].length),
        out[i] = if (([Json.obj [("status", Json.str "PENDING")],
              Json.obj []])[i]).hasKey "status"
          then Sum.inl (ProblemInitialStatus.mk
            ([Json.obj [("status", Json.str "PENDING")], Json.obj []][i]))
          else Sum.inr (ProblemSubmitError.mk
            ([Json.obj [("status", Json.str "PENDING")], Json.obj []][i]))) ∧
    (∃ out, (Problems.cancel_problems
        (fun _ => Json.arr [Json.obj [("status", Json.str "PENDING")], Json.obj []])
        ["id1", "id2"]).1 = .ok out ∧
      out.length = ["id1", "id2"].length ∧
      ∀ (i : Nat) (hi : i < out.length)
        (hr : i < [Json.obj [("status", Json.str "PENDING")], Json.obj []].length),
        out[i] = if (([Json.obj [("status", Json.str "PENDING")],
              Json.obj []])[i]).hasKey "status"
          then Sum.inl (ProblemStatus.mk
            ([Json.obj [("status", Json.str "PENDING")], Json.obj []][i]))
          else Sum.inr (ProblemCancelError.mk
            ([Json.obj [("status", Json.str "PENDING")], Json.obj []][i]))) ∧
    (∃ out, (Problems.get_problem_statuses
        (fun _ => Json.arr [Json.obj [("status", Json.str "PENDING")], Json.obj []])
        ["id1", "id2"]).1 = .ok out ∧
      out.length = ["id1", "id2"].length ∧
      ∀ (i : Nat) (hi : i < out.length)
        (hr : i < [Json.obj [("status", Json.str "PENDING")], Json.obj []].length),
        out[i] = ProblemStatus.mk
          ([Json.obj [("status", Json.str "PENDING")], Json.obj []][i])) :=
  C4_batch_results_match_inputs
    (fun _ => Json.arr [Json.obj [("status", Json.str "PENDING")], Json.obj []])
    [ProblemJob.mk "jobA", ProblemJob.mk "jobB"] ["id1", "id2"] ["id1", "id2"]
    [Json.obj [("status", Json.str "PENDING")], Json.obj []]
    [Json.obj [("status", Json.str "PENDING")], Json.obj []]
    [Json.obj [("status", Json.str "PENDING")], Json.obj []]
    rfl rfl rfl rfl rfl rfl (by simp)

/-- Claim C5: `get_problem_answer` builds its `ProblemAnswer` from exactly
the value stored under the `answer` key of the raw JSON response (the
one-level envelope is unwrapped), not from the full response envelope. -/
theorem C5_get_problem_answer_unwraps_envelope
    (session : Session) (problem_id : String) (answer : Json)
    (h : (session (Problems.answerRequest problem_id)).getKey "answer" = some answer) :
    (Problems.get_problem_answer session problem_id).1 = .ok (ProblemAnswer.mk answer) ∧
    (answer ≠ session (Problems.answerRequest problem_id) →
      (Problems.get_problem_answer session problem_id).1 ≠
        .ok (ProblemAnswer.mk (session (Problems.answerRequest problem_id)))) := by
  have hk := Problems.get_problem_answer_of_key session problem_id answer h
  constructor
  · rw [hk]
  · intro hne heq
    rw [hk] at heq
    simp only [Except.ok.injEq, ProblemAnswer.mk.injEq] at heq
    exact hne heq

/-- Claim C5 witness: a concrete enveloped response, whose decoded answer
is the sub-object and differs from the whole envelope. -/
theorem C5_get_problem_answer_unwraps_envelope_witness :
    (Problems.get_problem_answer
        (fun _ => Json.obj [("answer", Json.obj [("energy", Json.num 1)])]) "p1").1 =
      .ok (ProblemAnswer.mk (Json.obj [("energy", Json.num 1)])) ∧
    (Json.obj [("energy", Json.num 1)] ≠
        (fun _ => Json.obj [("answer", Json.obj [("energy", Json.num 1)])] :
          Session) (Problems.answerRequest "p1") →
      (Problems.get_problem_answer
          (fun _ => Json.obj [("answer", Json.obj [("energy", Json.num 1)])]) "p1").1 ≠
        .ok (ProblemAnswer.mk ((fun _ =>
            Json.obj [("answer", Json.obj [("energy", Json.num 1)])] : Session)
          (Problems.answerRequest "p1")))) :=
  C5_get_problem_answer_unwraps_envelope
    (fun _ => Json.obj [("answer", Json.obj [("energy", Json.num 1)])]) "p1"
    (Json.obj [("energy", Json.num 1)]) (by simp [Json.getKey])

/-- Claim C6: `get_problem_status` issues a listing query filtered by the
given id; on an empty filtered result it fails with NotFound (the
index/lookup error surfacing as that failure), and on a non-empty result
it returns the first element and never one from any other position. -/
theorem C6_get_problem_status_first_or_notFound
    (session : Session) (problem_id : String) :
    (Problems.get_problem_status session problem_id).2 =
      [Problems.listRequest [("id", problem_id)]] ∧
    (session (Problems.listRequest [("id", problem_id)]) = Json.arr [] →
      (Problems.get_problem_status session problem_id).1 = .error .notFound) ∧
    (∀ s rest, session (Problems.listRequest [("id", problem_id)]) =
        Json.arr (s :: rest) →
      (Problems.get_problem_status session problem_id).1 =
        .ok (ProblemStatus.mk s)) := by
  refine ⟨?_, ?_, ?_⟩
  · rw [Problems.get_problem_status]
    cases h : (session (Problems.listRequest [("id", problem_id)])).asArray with
    | some l => cases l <;> simp [h]
    | none => simp [h]
  · intro h
    rw [Problems.get_problem_status_of_arr session problem_id [] h]
    rfl
  · intro s rest h
    rw [Problems.get_problem_status_of_arr session problem_id (s :: rest) h]

/-- Claim C6 witness: an empty filtered listing yields NotFound; a
two-element listing yields the first element's status. -/
theorem C6_get_problem_status_first_or_notFound_witness :
    (Problems.get_problem_status (fun _ => Json.arr []) "p1").1 =
      .error .notFound ∧
    (Problems.get_problem_status
        (fun _ => Json.arr [Json.obj [("id", Json.str "p1")],
                            Json.obj [("id", Json.str "p2")]]) "p1").1 =
      .ok (ProblemStatus.mk (Json.obj [("id", Json.str "p1")])) :=
  ⟨(C6_get_problem_status_first_or_notFound (fun _ => Json.arr []) "p1").2.1 rfl,
   (C6_get_problem_status_first_or_notFound
      (fun _ => Json.arr [Json.obj [("id", Json.str "p1")],
                          Json.obj [("id", Json.str "p2")]]) "p1").2.2
      (Json.obj [("id", Json.str "p1")]) [Json.obj [("id", Json.str "p2")]] rfl⟩

/-- Claim C7: the body `submit_problems` sends is one JSON array formed by
independently serializing each job and joining the serializations with
commas inside a single pair of brackets, with a JSON content type; exactly
one request is issued. -/
theorem C7_submit_problems_request_body
    (session : Session) (problems : List ProblemJob) :
    (Problems.submit_problems session problems).2 =
      [Problems.submitRequest problems] ∧
    (Problems.submitRequest problems).dataBody =
      some ("[" ++ String.intercalate "," (problems.map ProblemJob.json) ++ "]") ∧
    (Problems.submitRequest problems).headers =
      [("Content-Type", "application/json")] := by
  refine ⟨?_, rfl, rfl⟩
  rw [Problems.submit_problems]
  cases h : (session (Problems.submitRequest problems)).asArray with
  | some statuses => simp [h]
  | none => simp [h]

/-- Claim C8: `list_problems` returns one `ProblemStatus` per element of
the JSON response array in the same order, and an empty response array
yields an empty sequence as a valid, non-error result. -/
theorem C8_list_problems_order_and_empty
    (session : Session) (params : List (String × String)) (raw : List Json)
    (h : session (Problems.listRequest params) = Json.arr raw) :
    (Problems.list_problems session params).1 = .ok (raw.map ProblemStatus.mk) ∧
    (raw = [] → (Problems.list_problems session params).1 = .ok []) := by
  have hl := Problems.list_problems_of_arr session params raw h
  refine ⟨by rw [hl], ?_⟩
  intro hraw
  subst hraw
  rw [hl]
  rfl

/-- Claim C8 witness: a `PENDING`-filtered listing with no matching
problems returns the empty sequence, not an error. -/
theorem C8_list_problems_order_and_empty_witness :
    (Problems.list_problems (fun _ => Json.arr [])
        [("status", "PENDING")]).1 = .ok (([] : List Json).map ProblemStatus.mk) ∧
    (([] : List Json) = [] →
      (Problems.list_problems (fun _ => Json.arr [])
        [("status", "PENDING")]).1 = .ok []) :=
  C8_list_problems_order_and_empty (fun _ => Json.arr [])
    [("status", "PENDING")] [] rfl

/-- Claim C9: for `submit_problems` and `cancel_problems` the
classification of response elements is total and exhaustive: every element
of the decoded response array is decoded into exactly one of the two
variants, so the output length always equals the length of the server's
response array — even when that differs from the number of requested
items. -/
theorem C9_batch_decode_total_per_response_element
    (session : Session) (problems : List ProblemJob) (problem_ids : List String)
    (rawSubmit rawCancel : List Json)
    (hrs : session (Problems.submitRequest problems) = Json.arr rawSubmit)
    (hrc : session (Problems.cancelRequest problem_ids) = Json.arr rawCancel) :
    (∃ out, (Problems.submit_problems session problems).1 = .ok out ∧
      out.length = rawSubmit.length ∧
      ∀ (i : Nat) (hi : i < out.length) (hr : i < rawSubmit.length),
        out[i] = if (rawSubmit[i]).hasKey "status"
          then Sum.inl (ProblemInitialStatus.mk (rawSubmit[i]))
          else Sum.inr (ProblemSubmitError.mk (rawSubmit[i]))) ∧
    (∃ out, (Problems.cancel_problems session problem_ids).1 = .ok out ∧
      out.length = rawCancel.length ∧
      ∀ (i : Nat) (hi : i < out.length) (hr : i < rawCancel.length),
        out[i] = if (rawCancel[i]).hasKey "status"
          then Sum.inl (ProblemStatus.mk (rawCancel[i]))
          else Sum.inr (ProblemCancelError.mk (rawCancel[i]))) := by
  refine ⟨⟨rawSubmit.map (fun s =>
      if s.hasKey "status" then .inl (ProblemInitialStatus.mk s)
      else .inr (ProblemSubmitError.mk s)), ?_, ?_, ?_⟩,
    ⟨rawCancel.map (fun s =>
      if s.hasKey "status" then .inl (ProblemStatus.mk s)
      else .inr (ProblemCancelError.mk s)), ?_, ?_, ?_⟩⟩
  · rw [Problems.submit_problems_of_arr session problems rawSubmit hrs]
  · rw [List.length_map]
  · intro i hi hr
    simp
  · rw [Problems.cancel_problems_of_arr session problem_ids rawCancel hrc]
  · rw [List.length_map]
  · intro i hi hr
    simp

/-- Claim C9 witness: two requested jobs and one requested id, but a
three-element response array; both decoders still return three results. -/
theorem C9_batch_decode_total_per_response_element_witness :
    (∃ out, (Problems.submit_problems
        (fun _ => Json.arr [Json.obj [("status", Json.str "PENDING")],
                            Json.obj [], Json.obj [("status", Json.str "PENDING")]])
        [ProblemJob.mk "jobA", ProblemJob.mk "jobB"]).1 = .ok out ∧
      out.length = [Json.obj [("status", Json.str "PENDING")],
                    Json.obj [], Json.obj [("status", Json.str "PENDING")]].length ∧
      ∀ (i : Nat) (hi : i < out.length)
        (hr : i < [Json.obj [("status", Json.str "PENDING")],
                   Json.obj [], Json.obj [("status", Json.str "PENDING")]].length),
        out[i] = if (([Json.obj [("status", Json.str "PENDING")],
              Json.obj [], Json.obj [("status", Json.str "PENDING")]])[i]).hasKey "status"
          then Sum.inl (ProblemInitialStatus.mk
            ([Json.obj [("status", Json.str "PENDING")],
              Json.obj [], Json.obj [("status", Json.str "PENDING")]][i]))
          else Sum.inr (ProblemSubmitError.mk
            ([Json.obj [("status", Json.str "PENDING")],
              Json.obj [], Json.obj [("status", Json.str "PENDING")]][i]))) ∧
    (∃ out, (Problems.cancel_problems
        (fun _ => Json.arr [Json.obj [("status", Json.str "PENDING")],
                            Json.obj [], Json.obj [("status", Json.str "PENDING")]])
        ["id1"]).1 = .ok out ∧
      out.length = [Json.obj [("status", Json.str "PENDING")],
                    Json.obj [], Json.obj [("status", Json.str "PENDING")]].length ∧
      ∀ (i : Nat) (hi : i < out.length)
        (hr : i < [Json.obj [("status", Json.str "PENDING")],
                   Json.obj [], Json.obj [("status", Json.str "PENDING")]].length),
        out[i] = if (([Json.obj [("status", Json.str "PENDING")],
              Json.obj [], Json.obj [("status", Json.str "PENDING")]])[i]).hasKey "status"
          then Sum.inl (ProblemStatus.mk
            ([Json.obj [("status", Json.str "PENDING")],
              Json.obj [], Json.obj [("status", Json.str "PENDING")]][i]))
          else Sum.inr (ProblemCancelError.mk
            ([Json.obj [("status", Json.str "PENDING")],
              Json.obj [], Json.obj [("status", Json.str "PENDING")]][i]))) :=
  C9_batch_decode_total_per_response_element
    (fun _ => Json.arr [Json.obj [("status", Json.str "PENDING")],
                        Json.obj [], Json.obj [("status", Json.str "PENDING")]])
    [ProblemJob.mk "jobA", ProblemJob.mk "jobB"] ["id1"]
    [Json.obj [("status", Json.str "PENDING")],
     Json.obj [], Json.obj [("status", Json.str "PENDING")]]
    [Json.obj [("status", Json.str "PENDING")],
     Json.obj [], Json.obj [("status", Json.str "PENDING")]]
    rfl rfl

/-- Claim C10: `coerce_numpy_to_python` is idempotent, and on inputs with
no numpy values it is the identity up to container reconstruction; it
always preserves the container kind, element order and length of every
list, tuple and dict it traverses. -/
theorem C10_coerce_numpy_to_python_idempotent_identity :
    (∀ v, coerce_numpy_to_python (coerce_numpy_to_python v) =
      coerce_numpy_to_python v) ∧
    (∀ v, numpyFree v = true → coerce_numpy_to_python v = v) ∧
    (∀ xs : List PyVal,
      coerce_numpy_to_python (.list xs) = .list (xs.map coerce_numpy_to_python) ∧
      (xs.map coerce_numpy_to_python).length = xs.length) ∧
    (∀ xs : List PyVal,
      coerce_numpy_to_python (.tuple xs) = .tuple (xs.map coerce_numpy_to_python) ∧
      (xs.map coerce_numpy_to_python).length = xs.length) ∧
    (∀ entries : List (PyVal × PyVal),
      coerce_numpy_to_python (.dict entries) =
        .dict (entries.map
          (fun e => (coerce_numpy_to_python e.1, coerce_numpy_to_python e.2))) ∧
      (entries.map
        (fun e => (coerce_numpy_to_python e.1, coerce_numpy_to_python e.2))).length =
        entries.length) := by
  refine ⟨?_, ?_, ?_, ?_, ?_⟩
  · intro v
    exact (coerce_core (sizeOf (coerce_numpy_to_python v))
        (coerce_numpy_to_python v) le_rfl).2
      ((coerce_core (sizeOf v) v le_rfl).1)
  · intro v h
    exact (coerce_core (sizeOf v) v le_rfl).2 h
  · intro xs
    exact ⟨coerce_list_def xs, List.length_map xs coerce_numpy_to_python⟩
  · intro xs
    exact ⟨coerce_tuple_def xs, List.length_map xs coerce_numpy_to_python⟩
  · intro entries
    exact ⟨coerce_dict_def entries, List.length_map entries _⟩

/-- Claim C10 witness: idempotence at a numpy-laden value and identity at
a numpy-free value. -/
theorem C10_coerce_numpy_to_python_idempotent_identity_witness :
    coerce_numpy_to_python (coerce_numpy_to_python
      (PyVal.dict [(PyVal.npInt 3, PyVal.npArray [PyVal.npBool true])])) =
      coerce_numpy_to_python
        (PyVal.dict [(PyVal.npInt 3, PyVal.npArray [PyVal.npBool true])]) ∧
    coerce_numpy_to_python
        (PyVal.tuple [PyVal.int 1, PyVal.str "a", PyVal.list [PyVal.float 2]]) =
      PyVal.tuple [PyVal.int 1, PyVal.str "a", PyVal.list [PyVal.float 2]] :=
  ⟨C10_coerce_numpy_to_python_idempotent_identity.1
      (PyVal.dict [(PyVal.npInt 3, PyVal.npArray [PyVal.npBool true])]),
   C10_coerce_numpy_to_python_idempotent_identity.2.1
      (PyVal.tuple [PyVal.int 1, PyVal.str "a", PyVal.list [PyVal.float 2]])
      (by simp [numpyFree_tuple_def, numpyFree_list_def, numpyFree])⟩
